import Mathlib

/-!
# Verification of the competitor-analyzer repository

Shallow embedding of the Instagram competitor analyzer
(`instagram_competitor_analyzer.py`) and the YouTube podcast analyzer
(`youtube_podcast_analyzer.py`), with theorems settling the frozen claims
about classification, scanning, ranking, transcript and summarization
behaviour.

Python strings are modelled by Lean `String`; the Python string methods the
code uses (`in`, `lower()`, `strip()`, `startswith`, `split`, `join`,
slicing, `len`) are given structural implementations over the underlying
character list so that every definition evaluates by kernel reduction.
-/

namespace Spec2Proof

/-! ## Python string primitives -/

/-- Does `needle` match at the head of `hay`? (helper for substring search). -/
def matchAt : List Char → List Char → Bool
  | [], _ => true
  | _ :: _, [] => false
  | a :: as, b :: bs => a = b && matchAt as bs

/-- Does `needle` occur (contiguously) anywhere in `hay`?  The empty needle
occurs everywhere, as for Python's `in`. -/
def occursIn (needle : List Char) : List Char → Bool
  | [] => needle.isEmpty
  | b :: bs => matchAt needle (b :: bs) || occursIn needle bs

/-- Python's `sub in s`. -/
def pyContains (s sub : String) : Bool :=
  occursIn sub.data s.data

/-- Python's `s.lower()` (ASCII letters, which is all the code compares). -/
def pyLower (s : String) : String :=
  String.mk (s.data.map Char.toLower)

/-- Python's `s.startswith(p)`. -/
def pyStartsWith (s p : String) : Bool :=
  matchAt p.data s.data

/-- Whitespace for `strip()`: the ASCII whitespace appearing in the inputs. -/
def isSpaceChar (c : Char) : Bool :=
  c = ' ' || c = '\t' || c = '\n' || c = '\r'

/-- Python's `s.strip()`. -/
def pyStrip (s : String) : String :=
  String.mk (((s.data.dropWhile isSpaceChar).reverse.dropWhile isSpaceChar).reverse)

/-- Split a character list at every occurrence of `c` (helper for `split`). -/
def splitChar (c : Char) : List Char → List (List Char)
  | [] => [[]]
  | x :: xs =>
    match splitChar c xs with
    | ys :: rest => if x = c then [] :: ys :: rest else (x :: ys) :: rest
    | [] => [[x]]

/-- Python's `s.split(c)` for a one-character separator. -/
def pySplit (s : String) (c : Char) : List String :=
  (splitChar c s.data).map String.mk

/-- Python's `sep.join(xs)`. -/
def pyJoin (sep : String) (xs : List String) : String :=
  String.intercalate sep xs

/-- Python's `s[:n]` (by characters). -/
def pyTake (s : String) (n : Nat) : String :=
  String.mk (s.data.take n)

/-- Python's `len(s)` (by characters). -/
def pyLen (s : String) : Nat :=
  s.data.length

/-! ## Instagram post classification

Embedding of the per-post classification block of
`CompetitorAnalyzer.fetch_posts_from_account`
(`instagram_competitor_analyzer.py`, lines 130-294).  A `RawPost` carries
the attributes the classifier reads from an `instaloader` post object;
optional attributes (`url`, `views`, the `is_reel` attribute,
`video_duration`) are `Option`-valued, `none` standing for a missing
attribute / `None` value. -/

structure RawPost where
  typename : String
  is_video : Bool
  url : Option String
  views : Option Nat
  likes : Nat
  comments : Nat
  is_reel_attr : Option Bool
  video_duration : Option Nat
  shortcode : String
  deriving Repr, DecidableEq

/-- The reel/video detection block (lines 187-254): mirrors the Python
statement by statement.  Returns `(is_reel, is_video_post)`. -/
def classifyReel (p : RawPost) : Bool × Bool :=
  -- is_reel = False; is_video_post = getattr(post, "is_video", False)
  let is_video_post := p.is_video
  let is_reel := false
  -- if is_video_post: ...
  let is_reel :=
    if is_video_post then
      -- if typename: three branches, each of which sets is_reel = True
      let is_reel :=
        if p.typename ≠ "" then
          let tl := pyLower p.typename
          if pyContains tl "reel" || p.typename = "GraphReel" then true
          else if p.typename = "GraphVideo" then true
          else true
        else is_reel
      -- if views is not None and views > 0: if not is_reel: is_reel = True
      let is_reel :=
        if (match p.views with | some v => 0 < v | none => false) && !is_reel
        then true else is_reel
      -- if hasattr(post, "is_reel") and getattr(post, "is_reel", False)
      let is_reel := if p.is_reel_attr = some true then true else is_reel
      -- if hasattr(post, "video_duration") and 0 < duration <= 90
      let is_reel :=
        match p.video_duration with
        | some d => if 0 < d && d ≤ 90 && !is_reel then true else is_reel
        | none => is_reel
      -- FINAL FALLBACK: if not is_reel: is_reel = True
      let is_reel := if !is_reel then true else is_reel
      is_reel
    else is_reel
  -- if hasattr(post, "url"): if post_url and "/reel/" in post_url.lower()
  let is_reel :=
    match p.url with
    | some u => if u ≠ "" && pyContains (pyLower u) "/reel/" then true else is_reel
    | none => is_reel
  (is_reel, is_video_post)

/-- `is_carousel = post.typename == "GraphSidecar"` (line 131). -/
def isCarousel (p : RawPost) : Bool :=
  p.typename = "GraphSidecar"

/-- Does the record's `url` attribute trigger the reel-path URL-pattern
override (lines 249-254)? -/
def urlReelOverride (p : RawPost) : Bool :=
  match p.url with
  | some u => u ≠ "" && pyContains (pyLower u) "/reel/"
  | none => false

-- sanity checks of the embedding on concrete records
example :
    classifyReel ⟨"GraphImage", false, some "https://x/reel/abc/", none, 5, 1,
      none, none, "abc"⟩ = (true, false) := by decide

example :
    classifyReel ⟨"GraphImage", false, some "https://x/p/abc/", none, 5, 1,
      none, none, "abc"⟩ = (false, false) := by decide

example :
    classifyReel ⟨"GraphSidecar", true, none, none, 5, 1, none, none, "abc"⟩
      = (true, true) := by decide

/-- The post record built for an in-window post (lines 264-294 of
`fetch_posts_from_account`): only the classification-relevant fields. -/
structure PostData where
  username : String
  shortcode : String
  likes : Nat
  comments : Nat
  engagement : Nat
  views : Option Nat
  reel_performance : Option Nat
  is_video : Bool
  is_reel : Bool
  is_carousel : Bool
  deriving Repr, DecidableEq

/-- Building the `post_data` dict (lines 169-294): engagement, views,
classification, and `reel_performance` (computed only for reels:
`views if views is not None else likes`). -/
def mkPostData (username : String) (p : RawPost) : PostData :=
  let likes := p.likes
  let comments := p.comments
  let engagement := likes + comments
  let views := p.views
  let c := classifyReel p
  let is_reel := c.1
  let is_video_post := c.2
  let reel_performance :=
    if is_reel then some (match views with | some v => v | none => likes)
    else none
  { username := username, shortcode := p.shortcode, likes := likes,
    comments := comments, engagement := engagement, views := views,
    reel_performance := reel_performance, is_video := is_video_post,
    is_reel := is_reel, is_carousel := isCarousel p }

/-! ## The bounded scan loop

Embedding of the `for post in profile.get_posts()` loop of
`fetch_posts_from_account` (lines 94-323).  Dates are modelled by `Int`
timestamps; the iterator is a list of posts, newest first as the claims
assume.  The loop threads `posts_checked`, `consecutive_old_posts` and the
accumulated `posts` list exactly as the Python does, and also reports the
value of `posts_checked` at the moment the loop stops. -/

/-- One account's scan: returns the collected posts (as `PostData`) together
with `posts_checked` at exit.  `start_d`/`end_d` delimit the window; each
iterator element is a `(date, raw-post)` pair. -/
def scanLoop (username : String) (start_d end_d : Int) :
    List (Int × RawPost) → Nat → Nat → List PostData → List PostData × Nat
  | [], checked, _, acc => (acc, checked)
  | (d, p) :: rest, checked, consec, acc =>
    -- posts_checked += 1
    let checked := checked + 1
    -- if post_date < start_date: consecutive += 1 else: consecutive = 0
    let consec := if d < start_d then consec + 1 else 0
    -- if consecutive_old_posts >= 10: break
    if d < start_d && 10 ≤ consec then (acc, checked)
    -- if posts_checked > max_posts_to_check: break  (max = 50)
    else if 50 < checked then (acc, checked)
    -- if start_date <= post_date <= end_date: collect
    else if start_d ≤ d && d ≤ end_d then
      scanLoop username start_d end_d rest checked consec
        (acc ++ [mkPostData username p])
    -- elif post_date < start_date: break
    else if d < start_d then (acc, checked)
    else scanLoop username start_d end_d rest checked consec acc

/-- `fetch_posts_from_account`, success path (no exception): run the scan
loop from the initial counters and return the collected posts with the
final `posts_checked`. -/
def fetchScan (username : String) (start_d end_d : Int)
    (it : List (Int × RawPost)) : List PostData × Nat :=
  scanLoop username start_d end_d it 0 0 []

/-! ## Ranking (analyze_competitors, lines 435-447)

Python's `list.sort(key=k, reverse=True)` is a stable descending sort:
elements with equal keys keep their original relative order.  `insertDesc`
places a new element before the first element whose key is `≤` its own,
which — elements being inserted back-to-front — reproduces exactly that
stable descending order. -/

def insertDesc (k : PostData → Nat) (a : PostData) : List PostData → List PostData
  | [] => [a]
  | x :: xs => if k x ≤ k a then a :: x :: xs else x :: insertDesc k a xs

def sortDesc (k : PostData → Nat) : List PostData → List PostData
  | [] => []
  | a :: l => insertDesc k a (sortDesc k l)

/-- Sort key for reels: `x.get("reel_performance", 0) or 0` (nulls → 0). -/
def reelKey (x : PostData) : Nat :=
  match x.reel_performance with | some v => v | none => 0

/-- Sort key for posts: `x["engagement"]`. -/
def engagementKey (x : PostData) : Nat :=
  x.engagement

/-- `reels = [p for p in all_posts if p.get("is_reel")]`, sorted descending
by `reel_performance` (nulls as 0), truncated to the top 10. -/
def rank_reels (items : List PostData) : List PostData :=
  ((sortDesc reelKey (items.filter (fun p => p.is_reel))).take 10)

/-- `posts = [p for p in all_posts if not p.get("is_reel")]`, sorted
descending by `engagement`, truncated to the top 10. -/
def rank_posts (items : List PostData) : List PostData :=
  ((sortDesc engagementKey (items.filter (fun p => !p.is_reel))).take 10)

/-! ## Exceptions during a scan

`fetch_posts_from_account` wraps the whole iteration in `try`; every
`except` handler (profile not found, login required, connection error,
generic) prints and `return []` (lines 325-348).  The iterator is modelled
as a list of events: a post, or the point at which the iterator raises. -/

inductive PostEvent where
  | post (date : Int) (p : RawPost)
  | raiseExc
  deriving Repr, DecidableEq

/-- The scan loop over an event stream: identical to `scanLoop`, except
that when the iterator raises, control jumps to the `except` handlers,
which all `return []` — whatever was in `posts` is discarded. -/
def scanLoopE (username : String) (start_d end_d : Int) :
    List PostEvent → Nat → Nat → List PostData → List PostData
  | [], _, _, acc => acc
  | .raiseExc :: _, _, _, _ => []
  | .post d p :: rest, checked, consec, acc =>
    let checked := checked + 1
    let consec := if d < start_d then consec + 1 else 0
    if d < start_d && 10 ≤ consec then acc
    else if 50 < checked then acc
    else if start_d ≤ d && d ≤ end_d then
      scanLoopE username start_d end_d rest checked consec
        (acc ++ [mkPostData username p])
    else if d < start_d then acc
    else scanLoopE username start_d end_d rest checked consec acc

/-- `fetch_posts_from_account` including its exception handling: returns
the collected posts, or `[]` when the iterator raised. -/
def fetchAcct (username : String) (start_d end_d : Int)
    (events : List PostEvent) : List PostData :=
  scanLoopE username start_d end_d events 0 0 []

/-- Accumulator of `analyze_competitors` (lines 369-371). -/
structure AnalyzeState where
  all_posts : List PostData
  successful_accounts : List String
  failed_accounts : List String
  deriving Repr, DecidableEq

/-- One iteration of the account loop (lines 394-410): fetch; nonempty
result extends `all_posts` and the successful list, empty result records
the account as failed with the "(no posts found)" annotation.  (The
`except` arm of the loop is unreachable: `fetchAcct` catches every
exception itself.) -/
def analyzeStep (start_d end_d : Int) (st : AnalyzeState)
    (acct : String × List PostEvent) : AnalyzeState :=
  let posts := fetchAcct acct.1 start_d end_d acct.2
  if posts ≠ [] then
    { st with all_posts := st.all_posts ++ posts,
              successful_accounts := st.successful_accounts ++ [acct.1] }
  else
    { st with failed_accounts :=
        st.failed_accounts ++ [acct.1 ++ " (no posts found)"] }

/-- The account loop of `analyze_competitors` (lines 379-419). -/
def analyze_competitors (start_d end_d : Int)
    (accounts : List (String × List PostEvent)) : AnalyzeState :=
  accounts.foldl (analyzeStep start_d end_d) ⟨[], [], []⟩

/-! ## YouTube: transcript acquisition (`youtube_podcast_analyzer.py`) -/

/-- The rate-limit test of `transcribe_with_youtube`'s handler
(lines 646-652). -/
def ytRateLimited (msg : String) : Bool :=
  pyContains msg "429" || pyContains msg "Too Many Requests" ||
  pyContains (pyLower msg) "rate limit" ||
  pyContains msg "403" || pyContains msg "Forbidden"

/-- Outcome of one attempt body: the parsed transcript, or a raised
exception's message. -/
inductive AttemptOutcome where
  | ok (transcript : String)
  | raises (msg : String)
  deriving Repr, DecidableEq

/-- `max_retries = 3` (line 532). -/
def max_retries : Nat := 3

/-- The attempt loop of `transcribe_with_youtube` (lines 534-660).  Every
branch of the body returns — `return transcript_text` on success, and both
arms of the `except` handler return — so the loop never advances past
`attempt = 0`: there is no retry, and the post-loop message is unreachable
whenever `max_retries > 0`. -/
def transcribeAttemptLoop (attempts : Nat → AttemptOutcome)
    (attempt : Nat) : String :=
  if attempt < max_retries then
    match attempts attempt with
    | .ok t => t
    | .raises msg =>
      if ytRateLimited msg then "Error: Rate limited. Please try again later."
      else "Error extracting transcript with yt-dlp: " ++ msg
  else "Error extracting transcript after 3 attempts."

/-- `transcribe_with_youtube`, as a function of what each attempt body
would do. -/
def transcribe_with_youtube (attempts : Nat → AttemptOutcome) : String :=
  transcribeAttemptLoop attempts 0

/-- The caption tracks of a video: the language keys of
`info["subtitles"]` and `info["automatic_captions"]` (lines 561-562).
Per-language format lists are abstracted away: the claims concern only
which languages are present. -/
structure CaptionInfo where
  subtitles : List String
  automatic_captions : List String
  deriving Repr, DecidableEq

/-- The accepted English language keys (lines 570, 578). -/
def englishLangs : List String := ["en", "en-US", "en-GB"]

/-- The language-selection loops (lines 566-582): first manual English
subtitles, then automatic English captions, in the fixed key order. -/
def pickEnglish (ci : CaptionInfo) : Option String :=
  match englishLangs.find? (fun l => ci.subtitles.contains l) with
  | some l => some l
  | none => englishLangs.find? (fun l => ci.automatic_captions.contains l)

/-- The subtitle-selection front of one transcribe attempt (lines 560-641):
with no English track the function returns the skip sentinel (lines
586-596); otherwise it proceeds to download and parse, whose result is
abstracted as `downstream`. -/
def transcribeBody (ci : CaptionInfo) (downstream : String) : String :=
  match pickEnglish ci with
  | none => "SKIP_NO_ENGLISH"
  | some _ => downstream

/-- The per-video gate of `fetch_podcasts_from_channel` (lines 399-409):
does the pipeline go on to call `summarize_transcript` for this
transcript?  The skip sentinel `continue`s to the next video before the
length/error check is even reached. -/
def willSummarize (transcript : String) : Bool :=
  if transcript = "SKIP_NO_ENGLISH" then false
  else transcript ≠ "" && 50 < pyLen (pyStrip transcript) &&
       !pyContains transcript "Error"

/-! ## VTT parsing (`parse_vtt_subtitle`, lines 662-702)

`re.sub(r"<[^>]+>", "", line)` scans left to right; at a `<` it matches one
or more non-`>` characters followed by `>` and deletes the whole span,
otherwise the `<` is kept and scanning resumes at the next character. -/

/-- Tag removal, as a left-to-right scan.  The state is `none` outside a
candidate tag, or `some buf` after an unresolved `<`, with `buf` the
characters seen since it (reversed).  A `>` with a non-empty buffer closes
a match `<[^>]+>` and the whole span is dropped; a `>` with an empty
buffer means `<>`, which the pattern cannot match, so both characters are
kept; at the end of input an unresolved `<` and its buffer are emitted
verbatim (no `>` follows, so no match can start at or after that `<`). -/
def stripTagsGo : Option (List Char) → List Char → List Char
  | none, [] => []
  | some buf, [] => '<' :: buf.reverse
  | none, c :: rest =>
    if c = '<' then stripTagsGo (some []) rest
    else c :: stripTagsGo none rest
  | some buf, c :: rest =>
    if c = '>' then
      match buf with
      | [] => '<' :: '>' :: stripTagsGo none rest
      | _ :: _ => stripTagsGo none rest
    else stripTagsGo (some (c :: buf)) rest

/-- `re.sub(r"<[^>]+>", "", s)` (line 689). -/
def stripTags (s : String) : String :=
  String.mk (stripTagsGo none s.data)

/-- The line loop of `parse_vtt_subtitle` (lines 673-697), with the inner
`while` of lines 684-692 expressed as a state: `none` between cues,
`some texts` while collecting the text lines of a cue (reversed).
Outside a cue: `WEBVTT`/`NOTE`/blank lines are skipped, a line containing
`-->` opens a cue, any other line is skipped.  Inside a cue: a non-blank
line is stripped, tag-stripped, and collected if non-empty; a blank line
(or the end of input) closes the cue, emitting the space-joined collected
text if there is any. -/
def parseVttGo : Option (List String) → List String → List String
  | none, [] => []
  | some texts, [] =>
    if texts ≠ [] then [pyJoin " " texts.reverse] else []
  | none, line :: rest =>
    let l := pyStrip line
    if pyStartsWith l "WEBVTT" || pyStartsWith l "NOTE" || l = "" then
      parseVttGo none rest
    else if pyContains l "-->" then parseVttGo (some []) rest
    else parseVttGo none rest
  | some texts, line :: rest =>
    if pyStrip line = "" then
      (if texts ≠ [] then [pyJoin " " texts.reverse] else [])
        ++ parseVttGo none rest
    else
      let t := stripTags (pyStrip line)
      parseVttGo (some (if t ≠ "" then t :: texts else texts)) rest

/-- The parsed transcript lines of a subtitle file given as a line list. -/
def parseVttLines (ls : List String) : List String :=
  parseVttGo none ls

/-- `parse_vtt_subtitle`, success path: split the file contents on
newlines, parse, and space-join the per-cue transcript lines. -/
def parse_vtt_subtitle (content : String) : String :=
  pyJoin " " (parseVttLines (pySplit content '\n'))

/-! ## Summarization (`summarize_transcript` and `summarize_with_gemini`,
lines 764-876; `summarize_with_gpt`, lines 878-919)

The AI provider call is modelled by a `ProviderOutcome`: the text the call
would return, or the message of the exception it would raise.  `not
api_key or not genai` is collapsed into one flag: is a provider
configured? -/

inductive ProviderOutcome where
  | success (text : String)
  | raises (msg : String)
  deriving Repr, DecidableEq

/-- The first 5 sentences, joined and suffixed with an ellipsis:
`". ".join(transcript.split(".")[:5]) + "..."` (lines 791-792, 870-871,
885-886, 918-919). -/
def fallbackSummary5 (transcript : String) : String :=
  pyJoin ". " ((pySplit transcript '.').take 5) ++ "..."

/-- The rate-limit test of `summarize_with_gemini`'s handler
(lines 851-857). -/
def geminiRateLimited (msg : String) : Bool :=
  pyContains msg "429" || pyContains msg "Too Many Requests" ||
  pyContains (pyLower msg) "rate limit" ||
  pyContains (pyLower msg) "quota" || pyContains msg "RESOURCE_EXHAUSTED"

/-- `summarize_with_gemini` (lines 782-876).  `max_retries = 1`, so the
single attempt is `attempt = 0`; on a rate-limit error,
`attempt < max_retries - 1` is false and the error string is returned —
*not* the extractive fallback, which is reserved for the unconfigured and
non-rate-limit cases. -/
def summarize_with_gemini (configured : Bool) (outcome : ProviderOutcome)
    (transcript : String) : String :=
  if !configured then fallbackSummary5 transcript
  else
    -- if len(transcript) > max_chars: transcript = transcript[:30000] + "..."
    let transcript :=
      if 30000 < pyLen transcript then pyTake transcript 30000 ++ "..."
      else transcript
    match outcome with
    | .success s =>
      let summary := pyStrip s
      if summary ≠ "" then summary
      else "Summary generation returned empty response."
    | .raises msg =>
      if geminiRateLimited msg then
        "Error: Rate limited after 1 attempts during summarization. Please try again later."
      else fallbackSummary5 transcript

/-- `summarize_with_gpt` (lines 878-919): unconfigured and exception paths
both take the extractive fallback. -/
def summarize_with_gpt (configured : Bool) (outcome : ProviderOutcome)
    (transcript : String) : String :=
  if !configured then fallbackSummary5 transcript
  else
    let transcript :=
      if 12000 < pyLen transcript then pyTake transcript 12000 ++ "..."
      else transcript
    match outcome with
    | .success s => pyStrip s
    | .raises _ => fallbackSummary5 transcript

/-- `summarize_transcript` (lines 764-780): the too-short guard, then
dispatch on the configured summarization method. -/
def summarize_transcript (method : String) (configured : Bool)
    (outcome : ProviderOutcome) (transcript : String) : String :=
  if transcript = "" ∨ pyLen (pyStrip transcript) < 50 then
    "Transcript too short to summarize."
  else if method = "gemini" then
    summarize_with_gemini configured outcome transcript
  else if method = "openai_gpt" then
    summarize_with_gpt configured outcome transcript
  else pyJoin ". " ((pySplit transcript '.').take 3) ++ "..."


/-! ## Helper lemmas -/

/-- Closed form of the reel flag: with the final any-video-is-a-reel
fallback, a record is classified as a reel iff it is a video or the
reel-path URL override fires. -/
theorem classifyReel_fst (p : RawPost) :
    (classifyReel p).1 = (p.is_video || urlReelOverride p) := by
  unfold classifyReel urlReelOverride
  cases hv : p.is_video <;> cases hu : p.url <;> simp [hv, hu]

theorem classifyReel_snd (p : RawPost) :
    (classifyReel p).2 = p.is_video := rfl

theorem insertDesc_perm (k : PostData → Nat) (a : PostData) (l : List PostData) :
    (insertDesc k a l).Perm (a :: l) := by
  induction l with
  | nil => simp [insertDesc]
  | cons x xs ih =>
    simp only [insertDesc]
    split
    · exact List.Perm.refl _
    · exact (List.Perm.cons x ih).trans (List.Perm.swap a x xs)

theorem sortDesc_perm (k : PostData → Nat) (l : List PostData) :
    (sortDesc k l).Perm l := by
  induction l with
  | nil => simp [sortDesc]
  | cons a l ih =>
    exact (insertDesc_perm k a (sortDesc k l)).trans (List.Perm.cons a ih)

theorem insertDesc_pairwise (k : PostData → Nat) (a : PostData) (l : List PostData)
    (h : l.Pairwise (fun x y => k y ≤ k x)) :
    (insertDesc k a l).Pairwise (fun x y => k y ≤ k x) := by
  induction l with
  | nil => simp [insertDesc]
  | cons x xs ih =>
    simp only [insertDesc]
    rcases List.pairwise_cons.mp h with ⟨hx, hxs⟩
    split
    · rename_i hka
      refine List.pairwise_cons.mpr ⟨?_, h⟩
      intro y hy
      rcases List.mem_cons.mp hy with rfl | hy2
      · exact hka
      · exact le_trans (hx y hy2) hka
    · rename_i hka
      refine List.pairwise_cons.mpr ⟨?_, ih hxs⟩
      intro y hy
      rcases List.mem_cons.mp ((insertDesc_perm k a xs).mem_iff.mp hy) with rfl | hy2
      · omega
      · exact hx y hy2

theorem sortDesc_pairwise (k : PostData → Nat) (l : List PostData) :
    (sortDesc k l).Pairwise (fun x y => k y ≤ k x) := by
  induction l with
  | nil => simp [sortDesc]
  | cons a l ih => exact insertDesc_pairwise k a _ ih

/-- Stability of the descending insertion at one key value: elements whose
key equals `v` appear in the same order as in the input. -/
theorem insertDesc_filter_key (k : PostData → Nat) (a : PostData)
    (l : List PostData) (v : Nat)
    (h : l.Pairwise (fun x y => k y ≤ k x)) :
    (insertDesc k a l).filter (fun x => decide (k x = v))
      = (if k a = v then a :: l.filter (fun x => decide (k x = v))
         else l.filter (fun x => decide (k x = v))) := by
  induction l with
  | nil => by_cases hv : k a = v <;> simp [insertDesc, hv]
  | cons x xs ih =>
    rcases List.pairwise_cons.mp h with ⟨hx, hxs⟩
    simp only [insertDesc]
    split
    · rename_i hka
      by_cases hv : k a = v <;> simp [List.filter_cons, hv]
    · rename_i hka
      by_cases hv : k a = v
      · have hxv : ¬(k x = v) := by omega
        simp [List.filter_cons, hxv, ih hxs, hv]
      · simp [List.filter_cons, ih hxs, hv]

/-- Stability of the sort: for every key value, the elements carrying it
keep their discovery order. -/
theorem sortDesc_filter_key (k : PostData → Nat) (l : List PostData) (v : Nat) :
    (sortDesc k l).filter (fun x => decide (k x = v))
      = l.filter (fun x => decide (k x = v)) := by
  induction l with
  | nil => rfl
  | cons a l ih =>
    have hmain := insertDesc_filter_key k a (sortDesc k l) v (sortDesc_pairwise k l)
    by_cases hv : k a = v <;> simp [sortDesc, hmain, hv, List.filter_cons, ih]


/-- After any run of in-window posts (at most 50 counting what was already
checked), the first older-than-start post stops the scan via the
past-date-range break: the 10-consecutive-old early exit never gets a
second old post to count. -/
theorem scanLoop_stops_at_first_old (username : String) (s e : Int)
    (ws : List (Int × RawPost)) (d : Int) (q : RawPost)
    (rest : List (Int × RawPost)) :
    ∀ (checked : Nat) (acc : List PostData),
    (∀ x ∈ ws, s ≤ x.1 ∧ x.1 ≤ e) → checked + ws.length ≤ 50 → d < s →
    scanLoop username s e (ws ++ (d, q) :: rest) checked 0 acc
      = (acc ++ ws.map (fun x => mkPostData username x.2),
         checked + ws.length + 1) := by
  induction ws with
  | nil =>
    intro checked acc hw hlen hd
    have hsd : ¬ s ≤ d := by omega
    by_cases h50 : 50 < checked + 1 <;>
      simp [scanLoop, hd, hsd, h50]
  | cons w ws ih =>
    intro checked acc hw hlen hd
    obtain ⟨dw, qw⟩ := w
    have hin := hw (dw, qw) (List.mem_cons_self _ _)
    have h1 : ¬(dw < s) := by omega
    have h2 : ¬(50 < checked + 1) := by
      simp only [List.length_cons] at hlen; omega
    simp only [List.cons_append, scanLoop]
    simp [h1, h2, hin.1, hin.2]
    rw [ih (checked + 1) (acc ++ [mkPostData username qw])
      (fun x hx => hw x (List.mem_cons_of_mem _ hx))
      (by simp only [List.length_cons] at hlen ⊢; omega) hd]
    simp [List.append_assoc]
    omega

/-- When the iterator raises after a run of at most 50 in-window posts,
the `except` handlers discard everything collected so far. -/
theorem scanLoopE_exc_discards (username : String) (s e : Int)
    (ws : List (Int × RawPost)) (tail : List PostEvent) :
    ∀ (checked : Nat) (acc : List PostData),
    (∀ x ∈ ws, s ≤ x.1 ∧ x.1 ≤ e) → checked + ws.length ≤ 50 →
    scanLoopE username s e
      ((ws.map fun x => PostEvent.post x.1 x.2) ++ .raiseExc :: tail)
      checked 0 acc = [] := by
  induction ws with
  | nil =>
    intro checked acc hw hlen
    simp [scanLoopE]
  | cons w ws ih =>
    intro checked acc hw hlen
    obtain ⟨dw, qw⟩ := w
    have hin := hw (dw, qw) (List.mem_cons_self _ _)
    have h1 : ¬(dw < s) := by omega
    have h2 : ¬(50 < checked + 1) := by
      simp only [List.length_cons] at hlen; omega
    simp only [List.map_cons, List.cons_append, scanLoopE]
    simp [h1, h2, hin.1, hin.2]
    exact ih (checked + 1) (acc ++ [mkPostData username qw])
      (fun x hx => hw x (List.mem_cons_of_mem _ hx))
      (by simp only [List.length_cons] at hlen ⊢; omega)

/-! ## VTT cue rendering (for the parser correctness statement) -/

/-- A well-formed subtitle cue: its timestamp-marker line and its text
lines. -/
structure VttCue where
  marker : String
  texts : List String

/-- The lines a cue occupies in a subtitle file: marker, texts, then the
blank separator. -/
def renderCue (c : VttCue) : List String := c.marker :: c.texts ++ [""]

/-- The transcript line the parser should produce for a cue: its text
lines, stripped and tag-stripped, space-joined. -/
def cueText (c : VttCue) : String :=
  pyJoin " " (c.texts.map (fun t => stripTags (pyStrip t)))

theorem parseVttGo_texts (texts rest : List String) (acc : List String)
    (h : ∀ t ∈ texts, pyStrip t ≠ "" ∧ stripTags (pyStrip t) ≠ "") :
    parseVttGo (some acc) (texts ++ "" :: rest)
      = (if acc.reverse ++ texts.map (fun t => stripTags (pyStrip t)) ≠ [] then
           [pyJoin " " (acc.reverse ++ texts.map (fun t => stripTags (pyStrip t)))]
         else []) ++ parseVttGo none rest := by
  induction texts generalizing acc with
  | nil =>
    have hstrip : pyStrip "" = "" := rfl
    by_cases ha : acc = []
    · subst ha; simp [parseVttGo, hstrip]
    · have ha2 : acc.reverse ≠ [] := by simpa using ha
      simp [parseVttGo, hstrip, ha, ha2]
  | cons t ts ih =>
    have ht := h t (List.mem_cons_self _ _)
    simp only [List.cons_append, parseVttGo]
    rw [if_neg ht.1, if_pos ht.2]
    rw [show (ts.append ("" :: rest)) = ts ++ "" :: rest from rfl]
    rw [ih (stripTags (pyStrip t) :: acc)
      (fun x hx => h x (List.mem_cons_of_mem _ hx))]
    simp [List.append_assoc]

theorem parseVttGo_cues (cues : List VttCue)
    (hm : ∀ c ∈ cues, pyContains (pyStrip c.marker) "-->" = true ∧
          pyStartsWith (pyStrip c.marker) "WEBVTT" = false ∧
          pyStartsWith (pyStrip c.marker) "NOTE" = false)
    (ht : ∀ c ∈ cues, c.texts ≠ [] ∧
          ∀ t ∈ c.texts, pyStrip t ≠ "" ∧ stripTags (pyStrip t) ≠ "") :
    parseVttGo none (cues.map renderCue).flatten = cues.map cueText := by
  induction cues with
  | nil => rfl
  | cons c cs ih =>
    have hmc := hm c (List.mem_cons_self _ _)
    have htc := ht c (List.mem_cons_self _ _)
    have hne : pyStrip c.marker ≠ "" := by
      intro hz
      rw [hz] at hmc
      exact absurd hmc.1 (by decide)
    simp only [List.map_cons, List.flatten, renderCue, List.cons_append, parseVttGo]
    rw [if_neg, if_pos hmc.1]
    · rw [show (c.texts.append [""]).append (List.map renderCue cs).flatten
          = c.texts ++ "" :: (List.map renderCue cs).flatten by simp]
      rw [parseVttGo_texts _ _ _ htc.2]
      have hmapne : c.texts.map (fun t => stripTags (pyStrip t)) ≠ [] := by
        simpa using htc.1
      rw [if_pos (by simpa using hmapne)]
      simp [cueText,
        ih (fun x hx => hm x (List.mem_cons_of_mem _ hx))
           (fun x hx => ht x (List.mem_cons_of_mem _ hx))]
    · simp [hmc.2.1, hmc.2.2, hne]

/-! ## The claims -/

/-! ## Concrete inputs used by the claim theorems -/

/-- A plain photo post record (classifies as neither video nor reel). -/
def dummyRaw : RawPost := ⟨"GraphImage", false, none, none, 0, 0, none, none, "x"⟩

/-- Scenario of claim C2: 3 in-window posts, then 12 consecutive posts
older than the window start. -/
def exScanIt : List (Int × RawPost) :=
  [(10, dummyRaw), (9, dummyRaw), (8, dummyRaw)]
    ++ List.replicate 12 ((-1 : Int), dummyRaw)

/-- C1, counterexample: one in-window post is collected, then the iterator
raises.  The handler returns `[]`: the collected post is discarded (second
conjunct shows it would have been returned without the exception).  In the
account loop the failing account lands in the failed list and the next
account is still processed. -/
theorem C1_counterexample :
    fetchAcct "a" 0 100 [.post 10 dummyRaw, .raiseExc] = [] ∧
    fetchAcct "a" 0 100 [.post 10 dummyRaw] = [mkPostData "a" dummyRaw] ∧
    analyze_competitors 0 100
      [("a", [.post 10 dummyRaw, .raiseExc]), ("b", [.post 5 dummyRaw])]
      = ⟨[mkPostData "b" dummyRaw], ["b"], ["a (no posts found)"]⟩ := by decide

/-- C1, amended: when an exception occurs partway through fetching an
account's posts, the posts already collected are discarded (the handler
returns `[]`), the account is recorded in the failed list (as "no posts
found"), and the loop proceeds to the remaining accounts with no exception
propagating. -/
theorem C1_partial_results_discarded (s e : Int) (name : String)
    (ws : List (Int × RawPost)) (tail : List PostEvent)
    (more : List (String × List PostEvent))
    (hw : ∀ x ∈ ws, s ≤ x.1 ∧ x.1 ≤ e) (hlen : ws.length ≤ 50) :
    fetchAcct name s e
        ((ws.map fun x => PostEvent.post x.1 x.2) ++ .raiseExc :: tail) = [] ∧
    analyze_competitors s e
        ((name, (ws.map fun x => PostEvent.post x.1 x.2) ++ .raiseExc :: tail)
          :: more)
      = more.foldl (analyzeStep s e) ⟨[], [], [name ++ " (no posts found)"]⟩ := by
  have hf := scanLoopE_exc_discards name s e ws tail 0 [] hw (by omega)
  refine ⟨hf, ?_⟩
  unfold analyze_competitors
  rw [List.foldl_cons]
  congr 1
  unfold analyzeStep
  simp [fetchAcct, hf]

/-- C1, witness for the amended theorem at the concrete two-account
input. -/
theorem C1_amended_witness :
    fetchAcct "a" 0 100 [.post 10 dummyRaw, .raiseExc] = [] ∧
    analyze_competitors 0 100
        [("a", [.post 10 dummyRaw, .raiseExc]), ("b", [.post 5 dummyRaw])]
      = [("b", [PostEvent.post 5 dummyRaw])].foldl (analyzeStep 0 100)
          ⟨[], [], ["a (no posts found)"]⟩ := by
  have H := C1_partial_results_discarded 0 100 "a" [(10, dummyRaw)] []
    [("b", [.post 5 dummyRaw])] (by decide) (by decide)
  simpa using H



/-- C2, counterexample. -/
theorem C2_counterexample :
    (fetchScan "u" 0 100 exScanIt).1.length = 3 ∧
    (fetchScan "u" 0 100 exScanIt).2 = 4 ∧
    ¬ (fetchScan "u" 0 100 exScanIt).2 = 13 := by decide

/-- C2, amended. -/
theorem C2_scan_termination (username : String) (s e : Int)
    (ws : List (Int × RawPost)) (d : Int) (q : RawPost)
    (rest : List (Int × RawPost))
    (hw : ∀ x ∈ ws, s ≤ x.1 ∧ x.1 ≤ e) (hlen : ws.length ≤ 50) (hd : d < s) :
    fetchScan username s e (ws ++ (d, q) :: rest)
      = (ws.map (fun x => mkPostData username x.2), ws.length + 1) := by
  have H := scanLoop_stops_at_first_old username s e ws d q rest 0 [] hw
    (by omega) hd
  simpa [fetchScan] using H

/-- C2, witness. -/
theorem C2_scan_witness :
    fetchScan "u" 0 100 exScanIt
      = ([mkPostData "u" dummyRaw, mkPostData "u" dummyRaw,
          mkPostData "u" dummyRaw], 4) := by
  have H := C2_scan_termination "u" 0 100
    [(10, dummyRaw), (9, dummyRaw), (8, dummyRaw)] (-1) dummyRaw
    (List.replicate 11 ((-1 : Int), dummyRaw)) (by decide) (by decide) (by decide)
  simpa [exScanIt] using H

/-- C3, counterexample. -/
def exReelUrlPhoto : RawPost :=
  ⟨"GraphImage", false, some "https://www.instagram.com/reel/abc123/", none,
    7, 2, none, none, "abc123"⟩

theorem C3_counterexample :
    (classifyReel exReelUrlPhoto).1 = true ∧
    (classifyReel exReelUrlPhoto).2 = false := by decide

/-- C3, amended. -/
theorem C3_reel_video_or_url (p : RawPost)
    (h : (classifyReel p).1 = true) :
    (classifyReel p).2 = true ∨ urlReelOverride p = true := by
  have hf := classifyReel_fst p
  rw [h] at hf
  rw [classifyReel_snd]
  cases hv : p.is_video
  · right
    rw [hv] at hf
    simpa using hf.symm
  · left; rfl

/-- C3, witness. -/
theorem C3_amended_witness :
    (classifyReel exReelUrlPhoto).1 = true ∧
    ((classifyReel exReelUrlPhoto).2 = true
      ∨ urlReelOverride exReelUrlPhoto = true) :=
  ⟨by decide, C3_reel_video_or_url exReelUrlPhoto (by decide)⟩



def exTranscript : String :=
  "Alpha sentence one. Beta sentence two. Gamma sentence three. Delta sentence four. Epsilon five. Zeta six."

/-- C4, counterexample. -/
theorem C4_counterexample :
    summarize_transcript "gemini" true (.raises "HTTP 429") exTranscript
        = "Error: Rate limited after 1 attempts during summarization. Please try again later." ∧
    ¬ summarize_transcript "gemini" true (.raises "HTTP 429") exTranscript
        = fallbackSummary5 exTranscript := by decide

/-- C4, amended. -/
theorem C4_summarize_behaviour (t msg : String)
    (h50 : 50 ≤ pyLen (pyStrip t)) (h30k : pyLen t ≤ 30000) :
    (∀ m k o (t2 : String), pyLen (pyStrip t2) < 50 →
        summarize_transcript m k o t2 = "Transcript too short to summarize.") ∧
    (∀ o, summarize_transcript "gemini" false o t = fallbackSummary5 t) ∧
    (geminiRateLimited msg = false →
        summarize_transcript "gemini" true (.raises msg) t
          = fallbackSummary5 t) ∧
    (geminiRateLimited msg = true →
        summarize_transcript "gemini" true (.raises msg) t
          = "Error: Rate limited after 1 attempts during summarization. Please try again later.") := by
  have hcond : ¬(t = "" ∨ pyLen (pyStrip t) < 50) := by
    rintro (rfl | hlt)
    · exact absurd h50 (by decide)
    · omega
  have htrunc : ¬(30000 < pyLen t) := by omega
  refine ⟨?_, ?_, ?_, ?_⟩
  · intro m k o t2 hlt
    unfold summarize_transcript
    rw [if_pos (Or.inr hlt)]
  · intro o
    unfold summarize_transcript
    rw [if_neg hcond, if_pos rfl]
    unfold summarize_with_gemini
    simp
  · intro hrl
    unfold summarize_transcript
    rw [if_neg hcond, if_pos rfl]
    unfold summarize_with_gemini
    simp only [Bool.not_true, if_neg]
    rw [if_neg htrunc]
    simp [hrl]
  · intro hrl
    unfold summarize_transcript
    rw [if_neg hcond, if_pos rfl]
    unfold summarize_with_gemini
    simp only [Bool.not_true, if_neg]
    rw [if_neg htrunc]
    simp [hrl]

/-- C4, witness. -/
theorem C4_amended_witness :
    summarize_transcript "gemini" true (.raises "HTTP 429") "short"
        = "Transcript too short to summarize." ∧
    summarize_transcript "gemini" false (.success "s") exTranscript
        = fallbackSummary5 exTranscript ∧
    summarize_transcript "gemini" true (.raises "boom") exTranscript
        = fallbackSummary5 exTranscript ∧
    summarize_transcript "gemini" true (.raises "HTTP 429") exTranscript
        = "Error: Rate limited after 1 attempts during summarization. Please try again later." := by
  refine ⟨(C4_summarize_behaviour exTranscript "boom" (by decide) (by decide)).1
            "gemini" true (.raises "HTTP 429") "short" (by decide),
          (C4_summarize_behaviour exTranscript "boom" (by decide) (by decide)).2.1
            (.success "s"),
          (C4_summarize_behaviour exTranscript "boom" (by decide) (by decide)).2.2.1
            (by decide),
          (C4_summarize_behaviour exTranscript "HTTP 429" (by decide) (by decide)).2.2.2
            (by decide)⟩



/-- Attempt behaviour for the C5 counterexample: the first attempt raises a
rate-limited error, a second attempt would succeed. -/
def exAttempts : Nat → AttemptOutcome :=
  fun n => if n = 0 then .raises "HTTP Error 429: Too Many Requests"
           else .ok "good transcript"

/-- C5, counterexample. -/
theorem C5_counterexample :
    transcribe_with_youtube exAttempts
        = "Error: Rate limited. Please try again later." ∧
    ¬ transcribe_with_youtube exAttempts = "good transcript" := by decide

/-- C5, amended. -/
theorem C5_no_retry (attempts : Nat → AttemptOutcome) (msg : String)
    (h : attempts 0 = .raises msg) :
    transcribe_with_youtube attempts =
      (if ytRateLimited msg then "Error: Rate limited. Please try again later."
       else "Error extracting transcript with yt-dlp: " ++ msg) := by
  unfold transcribe_with_youtube transcribeAttemptLoop
  rw [if_pos (by decide : (0:Nat) < max_retries), h]

/-- C5, witness. -/
theorem C5_amended_witness :
    transcribe_with_youtube exAttempts
      = "Error: Rate limited. Please try again later." := by
  rw [C5_no_retry exAttempts "HTTP Error 429: Too Many Requests" rfl]
  decide

/-- C6. -/
theorem C6_no_english_skips (ci : CaptionInfo) (downstream : String)
    (h : ∀ l ∈ englishLangs, ¬ l ∈ ci.subtitles ∧ ¬ l ∈ ci.automatic_captions) :
    transcribeBody ci downstream = "SKIP_NO_ENGLISH" ∧
    transcribe_with_youtube (fun _ => .ok (transcribeBody ci downstream))
      = "SKIP_NO_ENGLISH" ∧
    willSummarize "SKIP_NO_ENGLISH" = false := by
  have hpick : pickEnglish ci = none := by
    unfold pickEnglish
    have h1 : englishLangs.find? (fun l => ci.subtitles.contains l) = none := by
      rw [List.find?_eq_none]
      intro x hx hc
      exact (h x hx).1 (List.elem_iff.mp hc)
    have h2 : englishLangs.find?
        (fun l => ci.automatic_captions.contains l) = none := by
      rw [List.find?_eq_none]
      intro x hx hc
      exact (h x hx).2 (List.elem_iff.mp hc)
    rw [h1, h2]
  have hbody : transcribeBody ci downstream = "SKIP_NO_ENGLISH" := by
    unfold transcribeBody
    rw [hpick]
  refine ⟨hbody, ?_, by decide⟩
  unfold transcribe_with_youtube transcribeAttemptLoop
  simp [max_retries, hbody]

def exCaptions : CaptionInfo := ⟨["fr", "es"], ["de"]⟩

/-- C6, witness. -/
theorem C6_witness :
    transcribeBody exCaptions "parsed text" = "SKIP_NO_ENGLISH" ∧
    transcribe_with_youtube
        (fun _ => .ok (transcribeBody exCaptions "parsed text"))
      = "SKIP_NO_ENGLISH" ∧
    willSummarize "SKIP_NO_ENGLISH" = false :=
  C6_no_english_skips exCaptions "parsed text" (by decide)



/-- C7. -/
theorem C7_vtt_parse (cues : List VttCue)
    (hm : ∀ c ∈ cues, pyContains (pyStrip c.marker) "-->" = true ∧
          pyStartsWith (pyStrip c.marker) "WEBVTT" = false ∧
          pyStartsWith (pyStrip c.marker) "NOTE" = false)
    (ht : ∀ c ∈ cues, c.texts ≠ [] ∧
          ∀ t ∈ c.texts, pyStrip t ≠ "" ∧ stripTags (pyStrip t) ≠ "") :
    parseVttLines ("WEBVTT" :: "" :: (cues.map renderCue).flatten)
      = cues.map cueText ∧
    ∀ content, parse_vtt_subtitle content
      = pyJoin " " (parseVttLines (pySplit content '\n')) := by
  refine ⟨?_, fun content => rfl⟩
  have hstep : parseVttLines ("WEBVTT" :: "" :: (cues.map renderCue).flatten)
      = parseVttGo none (cues.map renderCue).flatten := by
    simp only [parseVttLines, parseVttGo]
    rw [if_pos (by decide), if_pos (by decide)]
  rw [hstep, parseVttGo_cues cues hm ht]

/-- C7, witness. -/
theorem C7_witness :
    parseVttLines ["WEBVTT", "",
        "00:00:01.000 --> 00:00:04.000", "Hello <b>world</b>", "",
        "00:00:04.000 --> 00:00:06.000", "Second cue text", ""]
      = ["Hello world", "Second cue text"] ∧
    parse_vtt_subtitle
        "WEBVTT\n\n00:00:01.000 --> 00:00:04.000\nHello <b>world</b>\n\n00:00:04.000 --> 00:00:06.000\nSecond cue text\n"
      = "Hello world Second cue text" := by
  constructor
  · have H := (C7_vtt_parse
      [⟨"00:00:01.000 --> 00:00:04.000", ["Hello <b>world</b>"]⟩,
       ⟨"00:00:04.000 --> 00:00:06.000", ["Second cue text"]⟩]
      (by decide) (by decide)).1
    simpa using H
  · decide



/-- C8. -/
theorem C8_ranking (items : List PostData) :
    rank_reels items
      = (sortDesc reelKey (items.filter fun p => p.is_reel)).take 10
  ∧ (sortDesc reelKey (items.filter fun p => p.is_reel)).Perm
      (items.filter fun p => p.is_reel)
  ∧ (rank_reels items).Pairwise (fun a b => reelKey b ≤ reelKey a)
  ∧ (rank_reels items).length ≤ 10
  ∧ (∀ v, (sortDesc reelKey (items.filter fun p => p.is_reel)).filter
        (fun x => decide (reelKey x = v))
      = (items.filter fun p => p.is_reel).filter
        (fun x => decide (reelKey x = v)))
  ∧ rank_posts items
      = (sortDesc engagementKey (items.filter fun p => !p.is_reel)).take 10
  ∧ (sortDesc engagementKey (items.filter fun p => !p.is_reel)).Perm
      (items.filter fun p => !p.is_reel)
  ∧ (rank_posts items).Pairwise (fun a b => engagementKey b ≤ engagementKey a)
  ∧ (rank_posts items).length ≤ 10
  ∧ (∀ v, (sortDesc engagementKey (items.filter fun p => !p.is_reel)).filter
        (fun x => decide (engagementKey x = v))
      = (items.filter fun p => !p.is_reel).filter
        (fun x => decide (engagementKey x = v))) := by
  refine ⟨rfl, sortDesc_perm _ _, ?_, ?_,
          fun v => sortDesc_filter_key _ _ v, rfl, sortDesc_perm _ _, ?_, ?_,
          fun v => sortDesc_filter_key _ _ v⟩
  · exact (sortDesc_pairwise _ _).sublist (List.take_sublist _ _)
  · have := List.length_take 10
      (sortDesc reelKey (items.filter fun p => p.is_reel))
    rw [rank_reels]
    omega
  · exact (sortDesc_pairwise _ _).sublist (List.take_sublist _ _)
  · have := List.length_take 10
      (sortDesc engagementKey (items.filter fun p => !p.is_reel))
    rw [rank_posts]
    omega

/-- C9. -/
theorem C9_reel_performance (username : String) (p : RawPost) :
    ((mkPostData username p).is_reel = true →
      (mkPostData username p).reel_performance
        = some (match p.views with | some v => v | none => p.likes)) ∧
    ((mkPostData username p).is_reel = false →
      (mkPostData username p).reel_performance = none) ∧
    (mkPostData username p).engagement = p.likes + p.comments := by
  unfold mkPostData
  cases hr : (classifyReel p).1 <;> simp [hr]

def exReelRaw : RawPost := ⟨"GraphVideo", true, none, some 100, 7, 2, none, none, "r1"⟩
def exPhotoRaw : RawPost := ⟨"GraphImage", false, none, none, 4, 2, none, none, "p1"⟩

/-- C9, witness. -/
theorem C9_witness :
    (mkPostData "u" exReelRaw).reel_performance = some 100 ∧
    (mkPostData "u" exPhotoRaw).reel_performance = none ∧
    (mkPostData "u" exReelRaw).engagement = 9 := by
  refine ⟨(C9_reel_performance "u" exReelRaw).1 (by decide),
          (C9_reel_performance "u" exPhotoRaw).2.1 (by decide), ?_⟩
  have H := (C9_reel_performance "u" exReelRaw).2.2
  simpa using H

def exSidecarVideo : RawPost := ⟨"GraphSidecar", true, none, none, 3, 1, none, none, "s1"⟩
def exSidecarPlain : RawPost := ⟨"GraphSidecar", false, none, none, 3, 1, none, none, "s2"⟩

/-- C10, counterexample. -/
theorem C10_counterexample :
    isCarousel exSidecarVideo = true ∧
    (classifyReel exSidecarVideo).1 = true := by decide

/-- C10, amended. -/
theorem C10_carousel_independent (p : RawPost) (h : isCarousel p = true) :
    (classifyReel p).1 = (p.is_video || urlReelOverride p) ∧
    (p.is_video = false → urlReelOverride p = false →
      (classifyReel p).1 = false) := by
  refine ⟨classifyReel_fst p, ?_⟩
  intro h1 h2
  rw [classifyReel_fst, h1, h2]
  rfl

/-- C10, witness. -/
theorem C10_amended_witness :
    (classifyReel exSidecarPlain).1
      = (exSidecarPlain.is_video || urlReelOverride exSidecarPlain) ∧
    (exSidecarPlain.is_video = false → urlReelOverride exSidecarPlain = false →
      (classifyReel exSidecarPlain).1 = false) :=
  C10_carousel_independent exSidecarPlain (by decide)

end Spec2Proof
